import Mathlib

/-!
Verification of the chat-context management engine of the nonebot-plugins
repository, embedded shallowly from src/nonebot-plugin-llm/chat.py.

Modelling conventions:
- The deque of messages is a List with the head at the front (oldest first);
  popleft is pattern matching on the head, append adds at the tail.
- Message timestamps are wall-clock values only ever compared and sorted, so
  they are modelled as Int; token counts are arbitrary machine integers in
  the source, modelled as Int.
- The token-counting function of the source is external to this core; every
  message carries its token_count as data, as in the source where messages
  are constructed before being handed to HistoryData.add_message.
- Fallible operations (indexing an empty deque, unpickling, migration steps)
  return Option or Except.
-/

/-- A message record: the fields of interface.BaseMessage that the history
engine reads (timestamp, token_count, raw text _content). Enrichment of the
visible content happens before insertion and is irrelevant here. -/
structure BaseMessage where
  timestamp : Int
  token_count : Int
  _content : String
  deriving DecidableEq, Repr

/-- The state of chat.HistoryData: the message deque, the running token
total, the duplicate-suppression cache last_text, and the budget
max_token_count fixed at construction. The _last_message cache of the source
is a pure memo of deque[-1] and is not modelled. -/
structure HistoryData where
  deque : List BaseMessage
  total_tokens : Int
  last_text : Option String
  max_token_count : Int
  deriving DecidableEq, Repr

/-- HistoryData.__init__ with copy_from = None and _pickle_data = None:
last_text None, total 0, empty deque. -/
def HistoryData.mk_empty (max_token_count : Int) : HistoryData :=
  { deque := [],
    total_tokens := 0,
    last_text := none,
    max_token_count := max_token_count }

/-- The loop body of HistoryData.check_limit:
while self.deque and self.total_tokens > self.max_token_count:
    self.total_tokens -= self.deque.popleft().token_count -/
def check_limit_go : List BaseMessage → Int → Int → List BaseMessage × Int
  | [], total, _ => ([], total)
  | m :: rest, total, mx =>
    if total > mx then check_limit_go rest (total - m.token_count) mx
    else (m :: rest, total)

/-- HistoryData.check_limit. Note the loop guard is `self.deque` being
non-empty, not `len(self.deque) > 1`: it may pop every message. -/
def HistoryData.check_limit (h : HistoryData) : HistoryData :=
  let p := check_limit_go h.deque h.total_tokens h.max_token_count
  { h with deque := p.1, total_tokens := p.2 }

/-- HistoryData.add_message(message, text=..., check_limit=...): add the
token count, push to the tail, set last_text to text (or the raw content
when text is None), then run check_limit if requested. -/
def HistoryData.add_message (h : HistoryData) (message : BaseMessage)
    (text : Option String) (check_limit : Bool) : HistoryData :=
  let h1 : HistoryData :=
    { h with
      total_tokens := h.total_tokens + message.token_count,
      deque := h.deque ++ [message],
      last_text := some (text.getD message._content) }
  if check_limit then HistoryData.check_limit h1 else h1

/-- HistoryData.is_last_text: text == self.last_text (a str never equals
None in the source, hence the some). -/
def HistoryData.is_last_text (h : HistoryData) (text : String) : Bool :=
  h.last_text == some text

/-- Setting deque[-1].timestamp to the given time. -/
def setLastTimestamp (now : Int) : List BaseMessage → List BaseMessage
  | [] => []
  | [m] => [{ m with timestamp := now }]
  | m :: m2 :: rest => m :: setLastTimestamp now (m2 :: rest)

/-- HistoryData.update_timestamp(-1): self.deque[-1].timestamp = time().
Indexing an empty deque raises IndexError in the source, modelled as none;
now stands for time(). -/
def HistoryData.update_timestamp (h : HistoryData) (now : Int) :
    Option HistoryData :=
  match h.deque with
  | [] => none
  | _ :: _ => some { h with deque := setLastTimestamp now h.deque }

/-- The Bool comparison `key=lambda x: x.timestamp` induces on messages. -/
def timestampLe (a b : BaseMessage) : Bool :=
  a.timestamp ≤ b.timestamp

/-- The Iterable branch of HistoryData.load: deque is the concatenation of
the source deques sorted by timestamp (sorted in the source is a stable
sort, here mergeSort), total_tokens the sum of the source totals, last_text
cleared; check_limit is not called in this branch. -/
def HistoryData.load_multi (h : HistoryData) (sources : List HistoryData) :
    HistoryData :=
  { h with
    deque := ((sources.map HistoryData.deque).flatten).mergeSort timestampLe,
    total_tokens := (sources.map HistoryData.total_tokens).sum,
    last_text := none }

/-- The per-history pickled dict: HistoryData.data_keys lists exactly the
keys deque, total_tokens and last_text, and both producers of such dicts in
the source (get_data_dict and history_data_1_to_2) emit exactly these three
keys, so the dict is modelled as a record of the three fields. -/
structure HDData where
  deque : List BaseMessage
  total_tokens : Int
  last_text : Option String
  deriving DecidableEq, Repr

/-- HistoryData.get_data_dict: the dict of the data_keys fields. -/
def HistoryData.get_data_dict (h : HistoryData) : HDData :=
  { deque := h.deque,
    total_tokens := h.total_tokens,
    last_text := h.last_text }

/-- HistoryData.load_pickel_data: setattr for each key of the dict — it
assigns exactly the keys present, so with a three-key dict the budget
max_token_count is untouched and no eviction is run. -/
def HistoryData.load_pickel_data (h : HistoryData) (data : HDData) :
    HistoryData :=
  { h with
    deque := data.deque,
    total_tokens := data.total_tokens,
    last_text := data.last_text }

/-- Sum of the token_count fields of a message list. -/
def sumTokens (q : List BaseMessage) : Int :=
  (q.map BaseMessage.token_count).sum

/-- The state of chat.ChatHistory that the history operations touch: the two
HistoryData slots and the dirty flag. The pickle path and the autosave
schedule of the source are bookkeeping for the I/O layer and are not fields
of this model. -/
structure ChatHistory where
  other_history : HistoryData
  chat_history : HistoryData
  changed : Bool
  deriving DecidableEq, Repr

/-- ChatHistory.__init__ with load_pickle=False: both slots are fresh empty
HistoryData sized by the instance limits, and changed is set to False. -/
def ChatHistory.mk_fresh (other_limit chat_limit : Int) : ChatHistory :=
  { other_history := HistoryData.mk_empty other_limit,
    chat_history := HistoryData.mk_empty chat_limit,
    changed := false }

/-- ChatHistory.add_chat_history: set changed, then either refresh the tail
timestamp on a repeat of last_text, or append the constructed message. The
message argument stands for the UserMessage or ModelMessage the source
builds in the non-repeat branch; its construction (enrichment, token count)
happens before the history is touched. The source also returns
last_message, which callers use for display only. -/
def ChatHistory.add_chat_history (ch : ChatHistory) (message : BaseMessage)
    (text : String) (auto_remove : Bool) (now : Int) : Option ChatHistory :=
  let ch1 : ChatHistory := { ch with changed := true }
  if ch1.chat_history.is_last_text text then
    (ch1.chat_history.update_timestamp now).map
      fun hd => { ch1 with chat_history := hd }
  else
    some { ch1 with
      chat_history :=
        ch1.chat_history.add_message message (some text) auto_remove }

/-- ChatHistory.add_other_history: same shape on the other_history slot. -/
def ChatHistory.add_other_history (ch : ChatHistory) (message : BaseMessage)
    (text : String) (auto_remove : Bool) (now : Int) : Option ChatHistory :=
  let ch1 : ChatHistory := { ch with changed := true }
  if ch1.other_history.is_last_text text then
    (ch1.other_history.update_timestamp now).map
      fun hd => { ch1 with other_history := hd }
  else
    some { ch1 with
      other_history :=
        ch1.other_history.add_message message (some text) auto_remove }

/-- The slice of chat.ChatInstance that clear_history touches: the owned
history and the two configured token limits that size a fresh history. -/
structure ChatInstance where
  history : ChatHistory
  other_context_token_limit : Int
  chat_context_token_limit : Int
  deriving DecidableEq, Repr

/-- ChatInstance.clear_history: self.history = ChatHistory(self, False) —
the history is replaced wholesale by a freshly constructed one. -/
def ChatInstance.clear_history (inst : ChatInstance) : ChatInstance :=
  { inst with
    history := ChatHistory.mk_fresh inst.other_context_token_limit
      inst.chat_context_token_limit }

/-- The current on-disk schema version of chat.py. -/
def VERSION : Nat := 2

/-- The pickled top-level dict, modelled by the keys load_pickle reads:
the VERSION tag (absent in v0 files) and the two per-history entries of the
current shape (absent keys yield None from dict.get and are skipped).
Shapes of older versions only flow through the abstract migration
functions and need no fields of their own. -/
structure PickleData where
  VERSION : Option Nat
  chat_history : Option HDData
  other_history : Option HDData
  deriving DecidableEq, Repr

/-- The two warnings load_pickle can log: the unpickling failure at load,
and the migration failure naming the version at which it failed. -/
inductive HWarning where
  | loadFailed
  | convertFailed (version : Nat)
  deriving DecidableEq, Repr

/-- Observable outcome of a load_pickle call: the resulting ChatHistory
state, the warnings logged, and whether an exception escaped to the
caller. -/
structure LoadResult where
  state : ChatHistory
  warnings : List HWarning
  raised : Bool
  deriving DecidableEq, Repr

/-- The migration while-loop:
while version < VERSION:
    pickle_data = upgrader_list[version](pickle_data)
    version += 1
unrolled on the fuel target - version (the loop advances version by exactly
one each iteration). A step that raises, or an out-of-range index, is the
error case carrying the version at which the loop failed. -/
def migrate_go (ups : List (PickleData → Except String PickleData)) :
    Nat → Nat → PickleData → Except Nat PickleData
  | 0, _, d => .ok d
  | fuel + 1, version, d =>
    match ups.get? version with
    | none => .error version
    | some f =>
      match f d with
      | .error _ => .error version
      | .ok d2 => migrate_go ups fuel (version + 1) d2

/-- The migration loop from a starting version up to the target version. -/
def migrate (ups : List (PickleData → Except String PickleData))
    (target version : Nat) (d : PickleData) : Except Nat PickleData :=
  migrate_go ups (target - version) version d

/-- The else branch of load_pickle: for each of history_keys in order
(chat_history, then other_history), if the migrated dict has the key, feed
it to that slot via load_pickel_data. -/
def ChatHistory.apply_pickle_data (ch : ChatHistory) (d : PickleData) :
    ChatHistory :=
  let ch1 :=
    match d.chat_history with
    | none => ch
    | some v => { ch with chat_history := ch.chat_history.load_pickel_data v }
  match d.other_history with
  | none => ch1
  | some v => { ch1 with other_history := ch1.other_history.load_pickel_data v }

/-- What ChatHistory.load_pickle finds on disk: no file, a file whose bytes
pickle.load cannot deserialize, or a deserialized dict. -/
inductive PickleFile where
  | noFile
  | unreadable
  | readable (d : PickleData)
  deriving Repr

/-- ChatHistory.load_pickle. The branches follow the source:
- no file: return immediately, nothing logged.
- pickle.load raises: the except arm logs the load-failure warning and falls
  through with the local pickle_data unbound. The second try block then
  raises UnboundLocalError at pickle_data.get, and its except handler
  re-raises UnboundLocalError while building the log message, because the
  local version is also unbound on this path — so the call logs exactly one
  warning and propagates the exception to the caller.
- deserialized dict: version = data.get(VERSION, 0); run the migration
  loop; on a failing step, log the warning carrying the version bound at the
  failure and skip the else block, leaving the freshly constructed (empty)
  histories in place; on success, assign the history slots. -/
def ChatHistory.load_pickle
    (ups : List (PickleData → Except String PickleData))
    (ch : ChatHistory) (file : PickleFile) : LoadResult :=
  match file with
  | .noFile => { state := ch, warnings := [], raised := false }
  | .unreadable =>
    { state := ch, warnings := [HWarning.loadFailed], raised := true }
  | .readable d =>
    match migrate ups VERSION (d.VERSION.getD 0) d with
    | .error v =>
      { state := ch, warnings := [HWarning.convertFailed v], raised := false }
    | .ok d2 =>
      { state := ch.apply_pickle_data d2, warnings := [], raised := false }

/-- The shared state the get_chat_instance path touches, reduced to one
fixed conversation key: the module-level registry entry for that key
(instances are identified by the order of construction), and event counters
for constructions and platform display-name lookups. -/
structure RegistryWorld where
  registry : Option Nat
  constructions : Nat
  lookups : Nat
  next_id : Nat
  deriving DecidableEq, Repr

/-- Progress of one call to get_chat_instance under cooperative scheduling.
The code runs atomically between awaits: the registry check happens before
the await inside async_init (the platform lookup), and construction plus
registration happen after it, so a call is either before its first step,
suspended at the await, or finished with a result. -/
inductive TaskState where
  | ready
  | waiting
  | finished (result : Nat)
  deriving DecidableEq, Repr

/-- One scheduler step of one call:
- ready: `if chat_key in chat_instances: return chat_instances[chat_key]`,
  otherwise enter ChatInstance.async_init and suspend at the awaited
  platform lookup (counted here, where the request is issued);
- waiting: resume after the lookup: ChatInstance.__init__ runs, which
  constructs the instance and registers it, overwriting any entry;
- finished: nothing more to do. -/
def taskStep (w : RegistryWorld) (t : TaskState) : RegistryWorld × TaskState :=
  match t with
  | .ready =>
    match w.registry with
    | some i => (w, .finished i)
    | none => ({ w with lookups := w.lookups + 1 }, .waiting)
  | .waiting =>
    ({ w with
       constructions := w.constructions + 1,
       registry := some w.next_id,
       next_id := w.next_id + 1 },
     .finished w.next_id)
  | .finished r => (w, .finished r)

/-- Two concurrent calls to get_chat_instance for the same key. -/
structure RaceState where
  world : RegistryWorld
  task1 : TaskState
  task2 : TaskState
  deriving DecidableEq, Repr

/-- Run one step of the chosen task (true = first caller). -/
def raceStep (s : RaceState) (first : Bool) : RaceState :=
  if first then
    let p := taskStep s.world s.task1
    { s with world := p.1, task1 := p.2 }
  else
    let p := taskStep s.world s.task2
    { s with world := p.1, task2 := p.2 }

/-- Run a cooperative schedule, one Bool per granted step. -/
def runSched (s : RaceState) : List Bool → RaceState
  | [] => s
  | b :: rest => runSched (raceStep s b) rest

/-- Initial state: the key unseen, no events yet, both calls about to run. -/
def raceInit : RaceState :=
  { world := { registry := none, constructions := 0, lookups := 0, next_id := 0 },
    task1 := TaskState.ready,
    task2 := TaskState.ready }

/-- Claim C1 (counterexample): appending a single message costing 20 tokens
to an empty 10-token-budget history does not leave that message in place
with total 20 — check_limit pops it, because its loop guard is only that
the deque is non-empty. -/
theorem add_message_keeps_tail_counterexample :
    ¬ (((HistoryData.mk_empty 10).add_message
          { timestamp := 0, token_count := 20, _content := "x" }
          (some "x") true).deque =
        [{ timestamp := 0, token_count := 20, _content := "x" }] ∧
       ((HistoryData.mk_empty 10).add_message
          { timestamp := 0, token_count := 20, _content := "x" }
          (some "x") true).total_tokens = 20) := by
  decide

/-- Claim C1 (amended): eviction can remove even the single most-recent
message: appending one message whose token_count exceeds max_token_count to
an empty history (with eviction enabled) leaves the history empty with
total_tokens 0. -/
theorem add_message_over_budget_evicts_all (h : HistoryData) (m : BaseMessage)
    (t : String) (hq : h.deque = []) (ht : h.total_tokens = 0)
    (hm : h.max_token_count < m.token_count) :
    (h.add_message m (some t) true).deque = [] ∧
    (h.add_message m (some t) true).total_tokens = 0 := by
  simp [HistoryData.add_message, HistoryData.check_limit, check_limit_go,
    hq, ht, hm]

/-- Witness for the amended C1 at the 20-token message against budget 10. -/
theorem add_message_over_budget_evicts_all_witness :
    ((HistoryData.mk_empty 10).add_message
        { timestamp := 0, token_count := 20, _content := "x" }
        (some "x") true).deque = [] ∧
    ((HistoryData.mk_empty 10).add_message
        { timestamp := 0, token_count := 20, _content := "x" }
        (some "x") true).total_tokens = 0 :=
  add_message_over_budget_evicts_all (HistoryData.mk_empty 10)
    { timestamp := 0, token_count := 20, _content := "x" } "x"
    rfl rfl (by decide)

/-- Claim C3 (code evaluation): on a file whose bytes fail to deserialize,
load_pickle logs the load-failure warning, leaves the history slots as
constructed, and lets an exception escape to the caller (raised = true):
the second try block reads the unbound local pickle_data and its except
handler re-raises while formatting the unbound local version. -/
theorem load_pickle_unreadable_raises
    (ups : List (PickleData → Except String PickleData)) (ch : ChatHistory) :
    ChatHistory.load_pickle ups ch PickleFile.unreadable =
      { state := ch, warnings := [HWarning.loadFailed], raised := true } :=
  rfl

/-- Claim C6 (counterexample): starting from an instance whose history is
dirty (changed = true), clear_history yields a history whose changed flag
is false — the flag is reset, contrary to the claim. -/
theorem clear_history_dirty_flag_counterexample :
    ¬ (({ history :=
            { other_history := HistoryData.mk_empty 5,
              chat_history := HistoryData.mk_empty 5,
              changed := true },
          other_context_token_limit := 5,
          chat_context_token_limit := 5 : ChatInstance }.clear_history
            ).history.changed = true) := by
  decide

/-- Claim C6 (amended): clear_history replaces the history with a freshly
constructed one: both the direct and the ambient history are empty, and the
changed flag is false afterwards — a clear is not itself marked as a change
requiring persistence. -/
theorem clear_history_amended (inst : ChatInstance) :
    (inst.clear_history.history.chat_history.deque = [] ∧
     inst.clear_history.history.chat_history.total_tokens = 0 ∧
     inst.clear_history.history.chat_history.last_text = none) ∧
    (inst.clear_history.history.other_history.deque = [] ∧
     inst.clear_history.history.other_history.total_tokens = 0 ∧
     inst.clear_history.history.other_history.last_text = none) ∧
    inst.clear_history.history.changed = false := by
  simp [ChatInstance.clear_history, ChatHistory.mk_fresh, HistoryData.mk_empty]

/-- Claim C7: serializing a HistoryData with get_data_dict and loading the
result into a fresh history with load_pickel_data reproduces an equal
message queue, an equal total_tokens and an equal last_text. -/
theorem get_data_dict_roundtrip (h : HistoryData) (lim : Int) :
    ((HistoryData.mk_empty lim).load_pickel_data h.get_data_dict).deque =
      h.deque ∧
    ((HistoryData.mk_empty lim).load_pickel_data h.get_data_dict).total_tokens =
      h.total_tokens ∧
    ((HistoryData.mk_empty lim).load_pickel_data h.get_data_dict).last_text =
      h.last_text :=
  ⟨rfl, rfl, rfl⟩

/-- Claim C9 (counterexample): under the schedule where both calls run their
registry check before either resumes from the awaited platform lookup, the
two calls to get_chat_instance construct two instances, perform two
lookups, and finish with different instances. -/
theorem get_chat_instance_race_counterexample :
    ¬ ((runSched raceInit [true, false, true, false]).world.constructions = 1 ∧
       (runSched raceInit [true, false, true, false]).world.lookups = 1 ∧
       (runSched raceInit [true, false, true, false]).task1 =
         (runSched raceInit [true, false, true, false]).task2) := by
  decide

/-- Claim C9 (amended): when the two calls do not interleave (the first runs
to completion before the second starts), the second caller receives the
registered instance and exactly one construction and one lookup occur; but
under the interleaved schedule both calls construct, two lookups occur, the
second registration overwrites the first, and the callers finish with
distinct instances. -/
theorem get_chat_instance_race_amended :
    ((runSched raceInit [true, true, false]).world.constructions = 1 ∧
     (runSched raceInit [true, true, false]).world.lookups = 1 ∧
     (runSched raceInit [true, true, false]).task1 = TaskState.finished 0 ∧
     (runSched raceInit [true, true, false]).task2 = TaskState.finished 0) ∧
    ((runSched raceInit [true, false, true, false]).world.constructions = 2 ∧
     (runSched raceInit [true, false, true, false]).world.lookups = 2 ∧
     (runSched raceInit [true, false, true, false]).task1 =
       TaskState.finished 0 ∧
     (runSched raceInit [true, false, true, false]).task2 =
       TaskState.finished 1) := by
  decide

/-- Claim C10: load_pickel_data assigns exactly the three persisted fields;
the budget max_token_count keeps its configured value and no eviction runs,
so a loaded history can sit above budget (witnessed by total 20 against
budget 10) until the next mutating append. -/
theorem load_pickel_data_frame (h : HistoryData) (d : HDData) :
    (h.load_pickel_data d).max_token_count = h.max_token_count ∧
    (h.load_pickel_data d).deque = d.deque ∧
    (h.load_pickel_data d).total_tokens = d.total_tokens ∧
    (h.load_pickel_data d).last_text = d.last_text ∧
    ((HistoryData.mk_empty 10).load_pickel_data
        { deque := [], total_tokens := 20, last_text := none }).max_token_count <
      ((HistoryData.mk_empty 10).load_pickel_data
        { deque := [], total_tokens := 20, last_text := none }).total_tokens :=
  ⟨rfl, rfl, rfl, rfl, by decide⟩

theorem check_limit_go_sum (mx : Int) (q : List BaseMessage) :
    ∀ total : Int, total = sumTokens q →
      (check_limit_go q total mx).2 = sumTokens (check_limit_go q total mx).1 := by
  induction q with
  | nil => intro total ht; simpa [check_limit_go] using ht
  | cons m rest ih =>
    intro total ht
    simp only [check_limit_go]
    by_cases hc : total > mx
    · rw [if_pos hc]
      apply ih
      simp only [sumTokens, List.map_cons, List.sum_cons] at ht ⊢
      omega
    · rw [if_neg hc]
      simpa using ht

theorem check_limit_sum (h : HistoryData)
    (hinv : h.total_tokens = sumTokens h.deque) :
    h.check_limit.total_tokens = sumTokens h.check_limit.deque := by
  simpa [HistoryData.check_limit] using
    check_limit_go_sum h.max_token_count h.deque h.total_tokens hinv

theorem add_message_sum (h : HistoryData) (m : BaseMessage)
    (t : Option String) (b : Bool)
    (hinv : h.total_tokens = sumTokens h.deque) :
    (h.add_message m t b).total_tokens = sumTokens (h.add_message m t b).deque := by
  have key : h.total_tokens + m.token_count = sumTokens (h.deque ++ [m]) := by
    simp [sumTokens, hinv]
  cases b with
  | false => simpa [HistoryData.add_message] using key
  | true =>
    simp only [HistoryData.add_message, if_true]
    exact check_limit_sum _ key

/-- A sequence of add_message calls, each op giving the message, the text
argument and the check_limit flag. -/
def applyOps (h : HistoryData) :
    List (BaseMessage × Option String × Bool) → HistoryData
  | [] => h
  | op :: rest => applyOps (h.add_message op.1 op.2.1 op.2.2) rest

/-- Claim C2: starting from any state satisfying the running-total
invariant (in particular a fresh empty history), every sequence of
add_message calls — with or without eviction — ends in a state where
total_tokens equals the sum of the queued token counts; since this holds
for every sequence it holds after each intermediate call as well. -/
theorem add_message_total_tokens_invariant
    (ops : List (BaseMessage × Option String × Bool)) (h : HistoryData)
    (hinv : h.total_tokens = sumTokens h.deque) :
    (applyOps h ops).total_tokens = sumTokens (applyOps h ops).deque := by
  induction ops generalizing h with
  | nil => exact hinv
  | cons op rest ih =>
    exact ih _ (add_message_sum h op.1 op.2.1 op.2.2 hinv)

/-- Witness for C2: two appends (the second over budget, evicting) on a
fresh 10-token history. -/
theorem add_message_total_tokens_invariant_witness :
    (applyOps (HistoryData.mk_empty 10)
        [({ timestamp := 0, token_count := 4, _content := "a" }, some "a", true),
         ({ timestamp := 1, token_count := 9, _content := "b" }, some "b", true)]
      ).total_tokens =
      sumTokens (applyOps (HistoryData.mk_empty 10)
        [({ timestamp := 0, token_count := 4, _content := "a" }, some "a", true),
         ({ timestamp := 1, token_count := 9, _content := "b" }, some "b", true)]
      ).deque :=
  add_message_total_tokens_invariant _ (HistoryData.mk_empty 10) rfl

theorem setLastTimestamp_length (now : Int) (q : List BaseMessage) :
    (setLastTimestamp now q).length = q.length := by
  induction q with
  | nil => rfl
  | cons m rest ih =>
    cases rest with
    | nil => rfl
    | cons m2 rest2 => simpa [setLastTimestamp] using ih

theorem update_timestamp_of_ne (h : HistoryData) (now : Int)
    (hne : h.deque ≠ []) :
    h.update_timestamp now =
      some { h with deque := setLastTimestamp now h.deque } := by
  unfold HistoryData.update_timestamp
  cases hq : h.deque with
  | nil => exact absurd hq hne
  | cons m rest => rfl

/-- Claim C4: on a non-empty history whose last_text equals the incoming
text, add_chat_history (and add_other_history) coalesces the repeat: the
resulting history equals the old one except that the dirty flag is set and
the tail message carries the new timestamp — total_tokens, last_text, the
budget and the queue length are untouched and nothing is appended. -/
theorem add_repeat_text_refreshes_tail (ch : ChatHistory)
    (message : BaseMessage) (text : String) (auto_remove : Bool) (now : Int) :
    (ch.chat_history.deque ≠ [] → ch.chat_history.is_last_text text = true →
      ch.add_chat_history message text auto_remove now =
        some { ch with
               changed := true,
               chat_history :=
                 { ch.chat_history with
                   deque := setLastTimestamp now ch.chat_history.deque } } ∧
      (setLastTimestamp now ch.chat_history.deque).length =
        ch.chat_history.deque.length) ∧
    (ch.other_history.deque ≠ [] → ch.other_history.is_last_text text = true →
      ch.add_other_history message text auto_remove now =
        some { ch with
               changed := true,
               other_history :=
                 { ch.other_history with
                   deque := setLastTimestamp now ch.other_history.deque } } ∧
      (setLastTimestamp now ch.other_history.deque).length =
        ch.other_history.deque.length) := by
  constructor
  · intro hne hlast
    refine ⟨?_, setLastTimestamp_length now _⟩
    simp [ChatHistory.add_chat_history, hlast, update_timestamp_of_ne _ now hne]
  · intro hne hlast
    refine ⟨?_, setLastTimestamp_length now _⟩
    simp [ChatHistory.add_other_history, hlast, update_timestamp_of_ne _ now hne]

/-- Witness for C4: a one-message history whose last_text is the repeated
text, refreshed at time 9. -/
theorem add_repeat_text_refreshes_tail_witness :
    ({ other_history := HistoryData.mk_empty 10,
       chat_history :=
         { deque := [{ timestamp := 1, token_count := 3, _content := "hi" }],
           total_tokens := 3,
           last_text := some "hi",
           max_token_count := 10 },
       changed := false : ChatHistory }.add_chat_history
         { timestamp := 9, token_count := 3, _content := "hi" } "hi" true 9 =
       some { other_history := HistoryData.mk_empty 10,
              chat_history :=
                { deque := setLastTimestamp 9
                    [{ timestamp := 1, token_count := 3, _content := "hi" }],
                  total_tokens := 3,
                  last_text := some "hi",
                  max_token_count := 10 },
              changed := true }) ∧
    (setLastTimestamp 9
        [{ timestamp := 1, token_count := 3, _content := "hi" }]).length =
      [{ timestamp := 1, token_count := 3, _content := "hi" : BaseMessage }].length :=
  (add_repeat_text_refreshes_tail
      { other_history := HistoryData.mk_empty 10,
        chat_history :=
          { deque := [{ timestamp := 1, token_count := 3, _content := "hi" }],
            total_tokens := 3,
            last_text := some "hi",
            max_token_count := 10 },
        changed := false }
      { timestamp := 9, token_count := 3, _content := "hi" } "hi" true 9).1
    (by decide) (by decide)

theorem timestampLe_trans (a b c : BaseMessage) (hab : timestampLe a b = true)
    (hbc : timestampLe b c = true) : timestampLe a c = true := by
  simp only [timestampLe, decide_eq_true_eq] at hab hbc ⊢
  omega

theorem timestampLe_total (a b : BaseMessage) :
    (timestampLe a b || timestampLe b a) = true := by
  simp only [timestampLe, Bool.or_eq_true, decide_eq_true_eq]
  omega

/-- Claim C5: merging sources in the multi-source union mode yields a queue
that is a permutation of the concatenation of the source queues, sorted by
ascending timestamp; total_tokens is the sum of the source totals (no
eviction is applied by the merge, whatever the budget), last_text is
cleared, and the budget of the target is kept. -/
theorem load_multi_union_spec (h : HistoryData) (sources : List HistoryData) :
    ((h.load_multi sources).deque).Perm
      ((sources.map HistoryData.deque).flatten) ∧
    List.Sorted (fun a b : BaseMessage => a.timestamp ≤ b.timestamp)
      (h.load_multi sources).deque ∧
    (h.load_multi sources).total_tokens =
      (sources.map HistoryData.total_tokens).sum ∧
    (h.load_multi sources).last_text = none ∧
    (h.load_multi sources).max_token_count = h.max_token_count := by
  refine ⟨List.mergeSort_perm _ _, ?_, rfl, rfl, rfl⟩
  have hs := List.sorted_mergeSort timestampLe_trans timestampLe_total
    ((sources.map HistoryData.deque).flatten)
  exact hs.imp fun hab => by
    simpa only [timestampLe, decide_eq_true_eq] using hab

/-- Claim C8: with the two-step upgrade chain of the source, a record
tagged version 0 is transformed by upgrader 0 and then upgrader 1, in that
ascending order, one step per version, until the current version 2 is
reached, and the migrated shape is then assigned to the history slots; a
record tagged version 1 runs only upgrader 1; a failing step logs the
warning carrying exactly the version at which the chain failed, leaves the
freshly constructed empty histories in place, and lets no exception escape
(raised = false); a record already at the current version runs no step. -/
theorem load_pickle_migration_chain
    (f0 f1 : PickleData → Except String PickleData) (ch : ChatHistory)
    (d d1 d2 : PickleData) (e : String) :
    (d.VERSION = some 0 → f0 d = .ok d1 → f1 d1 = .ok d2 →
      ChatHistory.load_pickle [f0, f1] ch (PickleFile.readable d) =
        { state := ch.apply_pickle_data d2, warnings := [],
          raised := false }) ∧
    (d.VERSION = some 0 → f0 d = .error e →
      ChatHistory.load_pickle [f0, f1] ch (PickleFile.readable d) =
        { state := ch, warnings := [HWarning.convertFailed 0],
          raised := false }) ∧
    (d.VERSION = some 0 → f0 d = .ok d1 → f1 d1 = .error e →
      ChatHistory.load_pickle [f0, f1] ch (PickleFile.readable d) =
        { state := ch, warnings := [HWarning.convertFailed 1],
          raised := false }) ∧
    (d.VERSION = some 1 → f1 d = .ok d2 →
      ChatHistory.load_pickle [f0, f1] ch (PickleFile.readable d) =
        { state := ch.apply_pickle_data d2, warnings := [],
          raised := false }) ∧
    (d.VERSION = some 1 → f1 d = .error e →
      ChatHistory.load_pickle [f0, f1] ch (PickleFile.readable d) =
        { state := ch, warnings := [HWarning.convertFailed 1],
          raised := false }) ∧
    (d.VERSION = some 2 →
      ChatHistory.load_pickle [f0, f1] ch (PickleFile.readable d) =
        { state := ch.apply_pickle_data d, warnings := [],
          raised := false }) := by
  refine ⟨?_, ?_, ?_, ?_, ?_, ?_⟩
  · intro hv h0 h1
    simp [ChatHistory.load_pickle, migrate, migrate_go, VERSION, hv, h0, h1]
  · intro hv h0
    simp [ChatHistory.load_pickle, migrate, migrate_go, VERSION, hv, h0]
  · intro hv h0 h1
    simp [ChatHistory.load_pickle, migrate, migrate_go, VERSION, hv, h0, h1]
  · intro hv h1
    simp [ChatHistory.load_pickle, migrate, migrate_go, VERSION, hv, h1]
  · intro hv h1
    simp [ChatHistory.load_pickle, migrate, migrate_go, VERSION, hv, h1]
  · intro hv
    simp [ChatHistory.load_pickle, migrate, migrate_go, VERSION, hv]

/-- Witness for C8: a version-0 record whose first upgrade succeeds and
whose second upgrade raises — the warning names version 1 and the fresh
empty history is kept. -/
theorem load_pickle_migration_chain_witness :
    ChatHistory.load_pickle
        [fun _ => Except.ok
            { VERSION := none, chat_history := none, other_history := none },
         fun _ => Except.error "boom"]
        (ChatHistory.mk_fresh 0 0)
        (PickleFile.readable
          { VERSION := some 0, chat_history := none, other_history := none }) =
      { state := ChatHistory.mk_fresh 0 0,
        warnings := [HWarning.convertFailed 1], raised := false } :=
  (load_pickle_migration_chain
      (fun _ => Except.ok
        { VERSION := none, chat_history := none, other_history := none })
      (fun _ => Except.error "boom")
      (ChatHistory.mk_fresh 0 0)
      { VERSION := some 0, chat_history := none, other_history := none }
      { VERSION := none, chat_history := none, other_history := none }
      { VERSION := none, chat_history := none, other_history := none }
      "boom").2.2.1 rfl rfl rfl
